import Mathlib

/-!
Verification of the cmsweb-exporters repository (dmwm/cmsweb-exporters)
against its natural-language specification.

The repository is a family of Prometheus exporters written in Go.  Each
exporter fetches status data from one source (an HTTP JSON status page, or
an external command), maps a fixed set of fields to metric samples, and
serves them on a pull endpoint.  This file shallowly embeds the data model
and the collect/map/publish operations of the exporters that the claims
are about:

* src/quota_exporter.go          (external-command source; `run`, `collect`, `Collect`)
* src/das2go_exporter.go         (HTTP JSON source; `collect`, `Collect`, `NewExporter`)
* src/http_exporter.go           (HTTP status source; `collect`, `Collect`)
* src/unnamed/part_000           (wmcore exporter; `collect`, `Collect`)
* src/unnamed/part_001           (cpy/cpstats exporter; `convert`, `Collect`)
* src/unnamed/part_003           (das2go "big" exporter; `collect`)

Modelling conventions:

* Go `float64` values are modelled by `GoFloat`: an exact rational together
  with explicit NaN and signed-infinity values.  The code paths under
  verification only add finite values and divide a finite sum by an array
  length, so exact rationals (no rounding) together with the IEEE special
  cases 0/0 = NaN and x/0 = ±Inf are an adequate idealization.
* The result of `json.Unmarshal` into `map[string]interface{}` is modelled
  by `RawSnapshot`, an association list of string keys to `JValue` trees.
  `json.Unmarshal` produces numbers as `float64`, strings, bools, nil,
  arrays as `[]interface{}` and objects as `map[string]interface{}`;
  the constructor `JValue.jarr2` additionally represents a Go value whose
  dynamic type is `[][]interface{}`, which `json.Unmarshal` never produces
  but which the source's `switch v.(type)` statements test for.
* A failed Go type assertion `v.(T)` is a runtime panic; extraction
  functions therefore return `Except String _` where `.error` is a panic
  with its message.
* Channel sends `ch <- prometheus.MustNewConstMetric(...)` are modelled by
  returning the list of emitted `MetricSample`s in source order.
-/

/-- Go `float64` modelled as an exact rational plus the IEEE special values
NaN and ±Infinity (`inf true` is negative infinity). -/
inductive GoFloat where
  | nan : GoFloat
  | inf : Bool → GoFloat
  | fin : ℚ → GoFloat
deriving DecidableEq, Repr

/-- Go `float64` addition (`cpupct += c`): NaN propagates, infinities of
opposite sign give NaN, otherwise exact rational addition. -/
def GoFloat.add : GoFloat → GoFloat → GoFloat
  | .nan, _ => .nan
  | _, .nan => .nan
  | .inf b, .inf c => if b = c then .inf b else .nan
  | .inf b, .fin _ => .inf b
  | .fin _, .inf c => .inf c
  | .fin a, .fin b => .fin (a + b)

/-- Go `float64` division (`cpupct / float64(len(cpus))`): 0/0 is NaN,
x/0 for finite x ≠ 0 is ±Inf, finite/finite is exact rational division. -/
def GoFloat.div : GoFloat → GoFloat → GoFloat
  | .nan, _ => .nan
  | _, .nan => .nan
  | .inf _, .inf _ => .nan
  | .inf b, .fin q => if q < 0 then .inf (!b) else .inf b
  | .fin _, .inf _ => .fin 0
  | .fin a, .fin b =>
      if b = 0 then (if a = 0 then .nan else .inf (decide (a < 0)))
      else .fin (a / b)

/-- A Go value as produced by `json.Unmarshal` into `interface{}` (numbers
become `float64`, arrays `[]interface{}`, objects `map[string]interface{}`),
plus `jarr2` for the dynamic type `[][]interface{}` which unmarshalling
never produces but the exporters' type switches test for. -/
inductive JValue where
  | jnum : GoFloat → JValue
  | jstr : String → JValue
  | jbool : Bool → JValue
  | jnull : JValue
  | jarr : List JValue → JValue
  | jarr2 : List (List JValue) → JValue
  | jobj : List (String × JValue) → JValue

/-- RawSnapshot: the unparsed structured response of one fetch, i.e. the
`map[string]interface{}` that `json.Unmarshal` fills in `collect`. -/
abbrev RawSnapshot := List (String × JValue)

/-- Map lookup `rec[key]` on the unmarshalled object (Go map keys are
unique; the first binding wins). -/
def jlookup (rec : RawSnapshot) (key : String) : Option JValue :=
  match rec with
  | [] => none
  | (k, v) :: rest => if k = key then some v else jlookup rest key

/-- Whether a `JValue` is a JSON number (Go dynamic type `float64`). -/
def JValue.isNum : JValue → Bool
  | .jnum _ => true
  | _ => false

/-- Values of dynamic type `[][]interface{}` are never produced by
`json.Unmarshal`; a top-level value of an unmarshalled snapshot therefore
satisfies this predicate. -/
def JValue.fromUnmarshal : JValue → Bool
  | .jarr2 _ => false
  | _ => true

/-- Every top-level value of the snapshot can have come from
`json.Unmarshal` (no `[][]interface{}` dynamic types).  Only top-level
values are constrained because the type switches under study are applied
to top-level fields. -/
def unmarshaledSnapshot (rec : RawSnapshot) : Bool :=
  rec.all fun p => p.2.fromUnmarshal

/-- One published metric sample: fully-qualified metric name, label values,
numeric value (a `prometheus.MustNewConstMetric` sent on the channel, or a
gauge-vector entry). -/
structure MetricSample where
  name : String
  labels : List String
  value : GoFloat
deriving DecidableEq, Repr

/-- prometheus.BuildFQName: joins namespace, subsystem and name with "_",
skipping empty components; an empty name gives an empty result. -/
def buildFQName (ns subsystem name : String) : String :=
  if name = "" then ""
  else if ns != "" then
    (if subsystem != "" then ns ++ "_" ++ subsystem ++ "_" ++ name
     else ns ++ "_" ++ name)
  else if subsystem != "" then subsystem ++ "_" ++ name
  else name

/-- Panic message of a failed Go type assertion (`v.(float64)`,
`v.(map[string]interface{})`, ...). -/
def typeAssertPanic : String := "interface conversion: unexpected dynamic type"

/-- Panic message of an out-of-range slice index (`c[len(c)-1]` on an
empty slice). -/
def indexPanic : String := "runtime error: index out of range"

/-- Result of one `collect(ch)` call: the samples sent on the channel and a
nil return, a returned error, or a runtime panic. -/
inductive CollectResult where
  | ok : List MetricSample → CollectResult
  | err : String → CollectResult
  | panic : String → CollectResult
deriving DecidableEq, Repr

/-- Outcome of one whole scrape cycle (a `Collect` call) for the exporter
process: it served samples and kept running (with the resulting failure
counter, `none` when the counter interface is nil), it crashed on an
unrecovered panic, or it terminated through `log.Fatal`. -/
inductive CycleOutcome where
  | served : List MetricSample → Option ℕ → CycleOutcome
  | crashed : CycleOutcome
  | fatal : CycleOutcome
deriving DecidableEq, Repr

/-- Whether a cycle outcome ends the exporter process. -/
def CycleOutcome.terminatesProcess : CycleOutcome → Bool
  | .served _ _ => false
  | .crashed => true
  | .fatal => true

/-- Outcome of the Source Adapter's HTTP fetch in `collect`: either
`client.Do` returned an error, or a response with a status code, a body,
and the result of the `json.Unmarshal` attempts on the body
(`parsedObj` for unmarshalling into `map[string]interface{}`, `parsedArr`
for the fallback into `[]map[string]interface{}` used by http_exporter;
`none` means the respective unmarshal failed). -/
inductive FetchOutcome where
  | netError : String → FetchOutcome
  | response : ℕ → String → Option RawSnapshot → Option (List RawSnapshot) → FetchOutcome

/-!
## The Go idiom `if v, ok := rec[key]; ok { x = v.(float64) }`

All das2go/wmcore-style exporters extract scalar fields this way: the
variable keeps its zero value when the key is absent, and the unchecked
type assertion panics when the key is present with a non-`float64` value.
-/

/-- Field extraction with zero default on absence and panic on type
mismatch, embedding the comma-ok + assertion idiom. -/
def floatOrZero (rec : RawSnapshot) (key : String) : Except String GoFloat :=
  match jlookup rec key with
  | none => .ok (.fin 0)
  | some (.jnum x) => .ok x
  | some _ => .error typeAssertPanic

/-- Total value function of `floatOrZero`: the extracted value when the
extraction does not panic (and zero otherwise; unused in that case). -/
def floatOrZeroVal (rec : RawSnapshot) (key : String) : GoFloat :=
  match jlookup rec key with
  | some (.jnum x) => x
  | _ => .fin 0

theorem floatOrZero_ok {rec : RawSnapshot} {key : String} {v : GoFloat}
    (h : floatOrZero rec key = .ok v) : v = floatOrZeroVal rec key := by
  unfold floatOrZero at h
  unfold floatOrZeroVal
  cases hl : jlookup rec key with
  | none => rw [hl] at h; exact (Except.ok.inj h).symm
  | some jv => cases jv <;> rw [hl] at h <;> simp_all

theorem floatOrZero_absent {rec : RawSnapshot} {key : String}
    (h : jlookup rec key = none) : floatOrZeroVal rec key = .fin 0 := by
  unfold floatOrZeroVal; rw [h]

/-!
## src/quota_exporter.go — the external-command (OpenStack quota) exporter
-/

/-- QuotaRecords represent quota.sh output (src/quota_exporter.go lines
16-31); all fields are Go `int64`, modelled as unbounded integers since
they are only converted to `float64` and published. -/
structure QuotaRecords where
  totalCpus : Int
  cpusUsed : Int
  totalRam : Int
  ramUsed : Int
  totalInstances : Int
  instancesUsed : Int
  totalVolume : Int
  volumesUsed : Int
  totalVolumeSize : Int
  totalVolumeSizeUsed : Int
  totalShares : Int
  sharesUsed : Int
  sharesSize : Int
  sharesSizeUsed : Int
deriving DecidableEq, Repr

/-- Outcome of `command.Output()` followed by `json.Unmarshal` in `run`:
the command exited non-zero (so `Output` returned an error), or it
succeeded and its stdout either unmarshals into a `QuotaRecords`
(`some rec`) or does not (`none`). -/
inductive CommandResult where
  | failed : ℕ → CommandResult
  | succeeded : Option QuotaRecords → CommandResult
deriving DecidableEq, Repr

/-- Result of `run` for the process: either the parsed records are
returned, or `log.Fatal` terminated the process. -/
inductive RunResult where
  | records : QuotaRecords → RunResult
  | fatalled : RunResult
deriving DecidableEq, Repr

/-- Embedding of `run(scriptPath, envFile)` (src/quota_exporter.go lines
171-183): a command error (non-zero exit) hits `log.Fatal(err)` and an
unmarshal error hits `log.Fatal(err2)`; both terminate the process.  Only
a successful, parseable invocation returns records. -/
def quotaRun : CommandResult → RunResult
  | .failed _ => .fatalled
  | .succeeded none => .fatalled
  | .succeeded (some rec) => .records rec

/-- The fifteen samples emitted by the quota exporter's `collect`
(src/quota_exporter.go lines 186-207) given the records and the value of
`time.Now().Unix()`; the namespace flag defaults to "default". -/
def quotaCollectSamples (r : QuotaRecords) (now : Int) : List MetricSample :=
  [ ⟨buildFQName "default" "" "total_cpus", [], .fin r.totalCpus⟩,
    ⟨buildFQName "default" "" "cpus_used", [], .fin r.cpusUsed⟩,
    ⟨buildFQName "default" "" "total_ram", [], .fin r.totalRam⟩,
    ⟨buildFQName "default" "" "ram_used", [], .fin r.ramUsed⟩,
    ⟨buildFQName "default" "" "total_instances", [], .fin r.totalInstances⟩,
    ⟨buildFQName "default" "" "instances_used", [], .fin r.instancesUsed⟩,
    ⟨buildFQName "default" "" "total_volume", [], .fin r.totalVolume⟩,
    ⟨buildFQName "default" "" "volumes_used", [], .fin r.volumesUsed⟩,
    ⟨buildFQName "default" "" "total_volume_size", [], .fin r.totalVolumeSize⟩,
    ⟨buildFQName "default" "" "total_volume_size_used", [], .fin r.totalVolumeSizeUsed⟩,
    ⟨buildFQName "default" "" "total_shares", [], .fin r.totalShares⟩,
    ⟨buildFQName "default" "" "shares_used", [], .fin r.sharesUsed⟩,
    ⟨buildFQName "default" "" "shares_size", [], .fin r.sharesSize⟩,
    ⟨buildFQName "default" "" "shares_size_used", [], .fin r.sharesSizeUsed⟩,
    ⟨buildFQName "default" "" "timestamp", [], .fin now⟩ ]

/-- One whole scrape cycle of the quota exporter (`Collect` lines 160-169
calling `collect` lines 186-207, which calls `run`): `run` either
terminates the process through `log.Fatal`, or `collect` publishes the
fifteen samples and returns nil, so `Collect` never sees an error and the
(initialized) failure counter is never incremented. -/
def quotaCycle (cmd : CommandResult) (scrapeFailures : ℕ) (now : Int) : CycleOutcome :=
  match quotaRun cmd with
  | .fatalled => .fatal
  | .records r => .served (quotaCollectSamples r now) (some scrapeFailures)

/-!
## src/http_exporter.go — the HTTP status exporter
-/

/-- The single status sample of http_exporter (namespace flag default
"http"). -/
def httpStatusSample (v : GoFloat) : MetricSample :=
  ⟨buildFQName "http" "" "status", [], v⟩

/-- Embedding of http_exporter's `collect` (src/http_exporter.go lines
180-271): every path emits at most one `status` sample and returns nil —
a transport error gives status 0; a non-200 response gives the status
code; for content type "application/json" a body that unmarshals as an
object is only logged (no sample), a body that unmarshals as a list gives
the status code, and an unparseable body gives 0; any other content type
gives the status code. -/
def httpCollect (contentType : String) (f : FetchOutcome) : List MetricSample :=
  match f with
  | .netError _ => [httpStatusSample (.fin 0)]
  | .response code _ parsedObj parsedArr =>
    if code ≠ 200 then [httpStatusSample (.fin code)]
    else if contentType = "application/json" then
      match parsedObj with
      | some _ => []
      | none =>
        match parsedArr with
        | some _ => [httpStatusSample (.fin code)]
        | none => [httpStatusSample (.fin 0)]
    else [httpStatusSample (.fin code)]

/-- One scrape cycle of http_exporter: its `collect` returns nil on every
path, so `Collect` (lines 168-177) never takes the error branch and the
(initialized) failure counter is never incremented; the process always
keeps serving. -/
def httpCycle (contentType : String) (f : FetchOutcome) (scrapeFailures : ℕ) : CycleOutcome :=
  .served (httpCollect contentType f) (some scrapeFailures)

/-!
## src/unnamed/part_001 — the cpy (CherryPy cpstats) exporter's Collect
-/

/-- Embedding of the cpy exporter's `Collect` (src/unnamed/part_001 lines
232-239), parameterized over the result of its `collect` helper: any
returned error hits `log.Fatalf`, terminating the process.  The cpy
exporter declares no scrapeFailures counter. -/
def cpyCollect (helper : Except String (List MetricSample)) : CycleOutcome :=
  match helper with
  | .error _ => .fatal
  | .ok samples => .served samples none

/-!
## src/das2go_exporter.go — the das2go exporter
-/

/-- Embedding of `mempct = v["usedPercent"].(float64)` under
`if r, ok := mem[key]; ok { v := r.(map[string]interface{}); ... }`
(src/das2go_exporter.go lines 261-268): absent key leaves zero; a present
non-object value fails the map assertion; a missing or non-number
"usedPercent" fails the float64 assertion (asserting on a nil interface
also panics). -/
def usedPercentOf (mem : List (String × JValue)) (key : String) : Except String GoFloat :=
  match jlookup mem key with
  | none => .ok (.fin 0)
  | some (.jobj vm) =>
      match jlookup vm "usedPercent" with
      | some (.jnum x) => .ok x
      | _ => .error typeAssertPanic
  | some _ => .error typeAssertPanic

/-- Total value function of `usedPercentOf` (its value whenever it does
not panic). -/
def usedPercentValOf (mem : List (String × JValue)) (key : String) : GoFloat :=
  match jlookup mem key with
  | some (.jobj vm) =>
      (match jlookup vm "usedPercent" with
       | some (.jnum x) => x
       | _ => .fin 0)
  | _ => .fin 0

/-- The Memory block of das2go's `collect` (lines 257-269):
`mem = v.(map[string]interface{})` then Virtual/Swap usedPercent. -/
def das2goMemory (rec : RawSnapshot) : Except String (GoFloat × GoFloat) :=
  match jlookup rec "Memory" with
  | none => .ok (.fin 0, .fin 0)
  | some (.jobj mem) =>
      (usedPercentOf mem "Virtual").bind fun mempct =>
        (usedPercentOf mem "Swap").map fun swappct => (mempct, swappct)
  | some _ => .error typeAssertPanic

/-- Total value function of `das2goMemory`. -/
def das2goMemoryVal (rec : RawSnapshot) : GoFloat × GoFloat :=
  match jlookup rec "Memory" with
  | some (.jobj mem) => (usedPercentValOf mem "Virtual", usedPercentValOf mem "Swap")
  | _ => (.fin 0, .fin 0)

/-- Elementwise `c.(float64)` over a `[]interface{}` (the CPU loop body);
panics at the first non-number element. -/
def asNums : List JValue → Except String (List GoFloat)
  | [] => .ok []
  | .jnum x :: rest => (asNums rest).map fun xs => x :: xs
  | _ :: _ => .error typeAssertPanic

/-- Total value function of `asNums` (elementwise, zero on mismatch;
only used where `asNums` succeeds). -/
def asNumsVal : List JValue → List GoFloat
  | [] => []
  | .jnum x :: rest => x :: asNumsVal rest
  | _ :: rest => .fin 0 :: asNumsVal rest

/-- Go's `cpupct += c.(float64)` accumulation starting from `0.0`. -/
def goSum (xs : List GoFloat) : GoFloat := xs.foldl GoFloat.add (.fin 0)

/-- The CPU block of das2go's `collect` (lines 270-276): assert
`[]interface{}`, sum the elements, divide by the length — the division is
unguarded, so an empty array yields 0/0 = NaN. -/
def das2goCPU (rec : RawSnapshot) : Except String GoFloat :=
  match jlookup rec "CPU" with
  | none => .ok (.fin 0)
  | some (.jarr cpus) =>
      (asNums cpus).map fun vals => (goSum vals).div (.fin ((cpus.length : ℚ)))
  | some _ => .error typeAssertPanic

/-- Total value function of `das2goCPU`. -/
def das2goCPUVal (rec : RawSnapshot) : GoFloat :=
  match jlookup rec "CPU" with
  | some (.jarr cpus) => (goSum (asNumsVal cpus)).div (.fin ((cpus.length : ℚ)))
  | _ => .fin 0

/-- The NGo-else-NThreads block of das2go's `collect` (lines 277-282). -/
def das2goNThr (rec : RawSnapshot) : Except String GoFloat :=
  match jlookup rec "NGo" with
  | some (.jnum x) => .ok x
  | some _ => .error typeAssertPanic
  | none =>
      match jlookup rec "NThreads" with
      | some (.jnum x) => .ok x
      | some _ => .error typeAssertPanic
      | none => .ok (.fin 0)

/-- Total value function of `das2goNThr`. -/
def das2goNThrVal (rec : RawSnapshot) : GoFloat :=
  match jlookup rec "NGo" with
  | some (.jnum x) => x
  | some _ => .fin 0
  | none =>
      match jlookup rec "NThreads" with
      | some (.jnum x) => x
      | _ => .fin 0

/-- The connections gauge vector of an Exporter: the "total",
"established" and "listen" entries, `none` until first set.  Persistent
exporter state across cycles (a `prometheus.GaugeVec` field). -/
structure ConnGauges where
  total : Option GoFloat
  established : Option GoFloat
  listen : Option GoFloat
deriving DecidableEq, Repr

/-- A fresh Exporter's connections gauge vector (no entry ever set). -/
def connGauges0 : ConnGauges := ⟨none, none, none⟩

/-- The shared connection loop of das2go (lines 291-299) and part_000
(lines 240-248): for each connection row, assert that its last element
(`c[len(c)-1]`) is a string — an empty row panics with an index error, a
non-string last element fails the assertion — and count "ESTABLISHED" and
"LISTEN" states. -/
def connLoopLast : List (List JValue) → ℕ → ℕ → Except String (ℕ × ℕ)
  | [], estCon, lisCon => .ok (estCon, lisCon)
  | c :: rest, estCon, lisCon =>
    match c.getLast? with
    | none => .error indexPanic
    | some (.jstr s) =>
        if s = "ESTABLISHED" then connLoopLast rest (estCon + 1) lisCon
        else if s = "LISTEN" then connLoopLast rest estCon (lisCon + 1)
        else connLoopLast rest estCon lisCon
    | some _ => .error typeAssertPanic

/-- Emission of `e.connections.Collect(ch)`: the gauge-vector entries that
have been set, in the fixed order total, established, listen (the Go
gauge vector iterates a map; the order is an abstraction, and in the code
paths under study either no entry or all three entries are set). -/
def connGaugesCollect (ns : String) (g : ConnGauges) : List MetricSample :=
  (match g.total with
   | some v => [⟨buildFQName ns "" "connections", ["total"], v⟩]
   | none => []) ++
  (match g.established with
   | some v => [⟨buildFQName ns "" "connections", ["established"], v⟩]
   | none => []) ++
  (match g.listen with
   | some v => [⟨buildFQName ns "" "connections", ["listen"], v⟩]
   | none => [])

/-- The Connections block of das2go's `collect` (lines 287-306):
`switch connections := v.(type)` with a single `case [][]interface{}` and
no default.  `json.Unmarshal` yields `[]interface{}` for every JSON
array, so on unmarshalled data the case never matches and the block does
nothing; a (hypothetical) `[][]interface{}` value is counted, the three
gauge entries are set, and the gauge vector is collected. -/
def das2goConn (rec : RawSnapshot) (g : ConnGauges) :
    Except String (List MetricSample × ConnGauges) :=
  match jlookup rec "Connections" with
  | none => .ok ([], g)
  | some (.jarr2 connections) =>
      (connLoopLast connections 0 0).map fun p =>
        let g' : ConnGauges :=
          ⟨some (.fin ((connections.length : ℚ))), some (.fin ((p.1 : ℚ))),
           some (.fin ((p.2 : ℚ)))⟩
        (connGaugesCollect "das2go" g', g')
  | some _ => .ok ([], g)

/-- Scalar extraction and emission of das2go's `collect` (lines 244-286
and the sends at 308-316), in source order; the constant namespace is
"das2go" (line 23). -/
def das2goScalars (rec : RawSnapshot) : Except String (List MetricSample) :=
  (floatOrZero rec "getCalls").bind fun getCalls =>
  (floatOrZero rec "postCalls").bind fun postCalls =>
  (floatOrZero rec "getRequests").bind fun getRequests =>
  (floatOrZero rec "postRequests").bind fun postRequests =>
  (das2goMemory rec).bind fun mems =>
  (das2goCPU rec).bind fun cpupct =>
  (das2goNThr rec).bind fun nthr =>
  (floatOrZero rec "Uptime").map fun uptime =>
    [ ⟨buildFQName "das2go" "" "get_calls", [], getCalls⟩,
      ⟨buildFQName "das2go" "" "post_calls", [], postCalls⟩,
      ⟨buildFQName "das2go" "" "get_requests", [], getRequests⟩,
      ⟨buildFQName "das2go" "" "post_requests", [], postRequests⟩,
      ⟨buildFQName "das2go" "" "uptime", [], uptime⟩,
      ⟨buildFQName "das2go" "" "memory_percent", [], mems.1⟩,
      ⟨buildFQName "das2go" "" "swap_percent", [], mems.2⟩,
      ⟨buildFQName "das2go" "" "cpu_percent", [], cpupct⟩,
      ⟨buildFQName "das2go" "" "num_threads", [], nthr⟩ ]

/-- The scalar sample list of das2go's `collect` as a total function of
the snapshot (the value of `das2goScalars` whenever it does not panic). -/
def das2goScalarVals (rec : RawSnapshot) : List MetricSample :=
  [ ⟨buildFQName "das2go" "" "get_calls", [], floatOrZeroVal rec "getCalls"⟩,
    ⟨buildFQName "das2go" "" "post_calls", [], floatOrZeroVal rec "postCalls"⟩,
    ⟨buildFQName "das2go" "" "get_requests", [], floatOrZeroVal rec "getRequests"⟩,
    ⟨buildFQName "das2go" "" "post_requests", [], floatOrZeroVal rec "postRequests"⟩,
    ⟨buildFQName "das2go" "" "uptime", [], floatOrZeroVal rec "Uptime"⟩,
    ⟨buildFQName "das2go" "" "memory_percent", [], (das2goMemoryVal rec).1⟩,
    ⟨buildFQName "das2go" "" "swap_percent", [], (das2goMemoryVal rec).2⟩,
    ⟨buildFQName "das2go" "" "cpu_percent", [], das2goCPUVal rec⟩,
    ⟨buildFQName "das2go" "" "num_threads", [], das2goNThrVal rec⟩ ]

/-- The Field Mapper of das2go: the whole of `collect` after unmarshalling
(lines 244-317).  Scalars are extracted first (a failed assertion aborts
as a panic), then the Connections block runs (possibly updating the gauge
state), and finally the gauge samples (emitted inside the Connections
block) precede the nine scalar sends.  Returns the collect result and the
gauge state after the call. -/
def das2goMap (rec : RawSnapshot) (g : ConnGauges) : CollectResult × ConnGauges :=
  match das2goScalars rec with
  | .error p => (.panic p, g)
  | .ok scalarSamples =>
    match das2goConn rec g with
    | .error p => (.panic p, g)
    | .ok (connSamples, g') => (.ok (connSamples ++ scalarSamples), g')

/-- Embedding of das2go's whole `collect` (lines 215-318) given the fetch
outcome: transport errors, non-200 statuses and unmarshal failures are
returned as errors before any extraction; otherwise the Field Mapper
runs. -/
def das2goCollectHelper (f : FetchOutcome) (g : ConnGauges) :
    CollectResult × ConnGauges :=
  match f with
  | .netError msg => (.err ("Error scraping apache: " ++ msg), g)
  | .response code body parsedObj _ =>
    if code ≠ 200 then (.err ("Status (" ++ toString code ++ "): " ++ body), g)
    else
      match parsedObj with
      | none => (.err "Fail to unmarshal JSON data", g)
      | some rec => das2goMap rec g

/-- das2go's `NewExporter` (lines 130-187) populates every descriptor
field but never assigns `scrapeFailures`; the zero value of the
`prometheus.Counter` interface field is nil. -/
def das2goNewExporterScrapeFailures : Option ℕ := none

/-- The sample emitted for the scrapeFailures counter: it is built with
`prometheus.NewCounter(prometheus.CounterOpts{})`, whose fully-qualified
name is empty. -/
def failureCounterSample (n : ℕ) : MetricSample := ⟨"", [], .fin ((n : ℚ))⟩

/-- One whole scrape cycle of das2go (`Collect`, lines 203-212): on a
collect error it calls `e.scrapeFailures.Inc()` — a panic when the counter
is nil (see `das2goNewExporterScrapeFailures`), otherwise increment and
emit the counter; a panic inside collect propagates.  An unrecovered
panic in the registry's collector goroutine crashes the process. -/
def das2goCycle (f : FetchOutcome) (scrapeFailures : Option ℕ) (g : ConnGauges) :
    CycleOutcome :=
  match das2goCollectHelper f g with
  | (.ok samples, _) => .served samples scrapeFailures
  | (.err _, _) =>
      match scrapeFailures with
      | none => .crashed
      | some n => .served [failureCounterSample (n + 1)] (some (n + 1))
  | (.panic _, _) => .crashed

/-!
## src/unnamed/part_001 — the cpy exporter's `convert`
-/

/-- Embedding of `convert(srv, key)` (src/unnamed/part_001 lines 335-348):
`r := srv[key]` (nil when absent), then a type switch — a `float64` is
returned as is; the `case int, int32, int64` branch (which would return
the constant 64) is unreachable because `json.Unmarshal` never produces
Go int values; everything else falls to the default branch, which returns
zero without panicking. -/
def convert (srv : List (String × JValue)) (key : String) : GoFloat :=
  match jlookup srv key with
  | some (.jnum x) => x
  | _ => .fin 0

/-!
## Characterization lemmas for the das2go extraction
-/

/-- Whether an `Except` computation succeeded. -/
def exIsOk {α : Type} (e : Except String α) : Bool :=
  match e with
  | .ok _ => true
  | .error _ => false

theorem exIsOk_iff {α : Type} (e : Except String α) :
    exIsOk e = true ↔ ∃ v, e = .ok v := by
  cases e <;> simp [exIsOk]

theorem except_bind_ok {α β : Type} {e : Except String α} {k : α → Except String β}
    {r : β} (h : e.bind k = .ok r) : ∃ v, e = .ok v ∧ k v = .ok r := by
  cases e with
  | error s => cases h
  | ok v => exact ⟨v, rfl, h⟩

theorem except_map_ok {α β : Type} {e : Except String α} {f : α → β} {r : β}
    (h : e.map f = .ok r) : ∃ v, e = .ok v ∧ r = f v := by
  cases e with
  | error s => cases h
  | ok v => exact ⟨v, rfl, (Except.ok.inj h).symm⟩

theorem usedPercentOf_ok {mem : List (String × JValue)} {key : String} {v : GoFloat}
    (h : usedPercentOf mem key = .ok v) : v = usedPercentValOf mem key := by
  unfold usedPercentOf at h
  unfold usedPercentValOf
  repeat' split at h
  all_goals simp_all

theorem das2goMemory_ok {rec : RawSnapshot} {p : GoFloat × GoFloat}
    (h : das2goMemory rec = .ok p) : p = das2goMemoryVal rec := by
  unfold das2goMemory at h
  unfold das2goMemoryVal
  split at h
  · simp_all
  · next mem heq =>
      rw [heq]
      obtain ⟨a, ha, h⟩ := except_bind_ok h
      obtain ⟨b, hb, hp⟩ := except_map_ok h
      rw [hp, usedPercentOf_ok ha, usedPercentOf_ok hb]
  · cases h

theorem asNums_ok : ∀ {l : List JValue} {xs : List GoFloat},
    asNums l = .ok xs → xs = asNumsVal l := by
  intro l
  induction l with
  | nil =>
      intro xs h
      exact (Except.ok.inj h).symm
  | cons hd tl ih =>
      intro xs h
      cases hd with
      | jnum x =>
          obtain ⟨ys, hys, hxs⟩ := except_map_ok h
          rw [hxs, ih hys]
          rfl
      | jstr s => cases h
      | jbool b => cases h
      | jnull => cases h
      | jarr l2 => cases h
      | jarr2 l2 => cases h
      | jobj l2 => cases h

theorem das2goCPU_ok {rec : RawSnapshot} {v : GoFloat}
    (h : das2goCPU rec = .ok v) : v = das2goCPUVal rec := by
  unfold das2goCPU at h
  unfold das2goCPUVal
  split at h
  · simp_all
  · next cpus heq =>
      rw [heq]
      obtain ⟨xs, hxs, hv⟩ := except_map_ok h
      rw [hv, asNums_ok hxs]
  · cases h

theorem das2goNThr_ok {rec : RawSnapshot} {v : GoFloat}
    (h : das2goNThr rec = .ok v) : v = das2goNThrVal rec := by
  unfold das2goNThr at h
  unfold das2goNThrVal
  repeat' split at h
  all_goals simp_all

theorem das2goScalars_ok {rec : RawSnapshot} {l : List MetricSample}
    (h : das2goScalars rec = .ok l) : l = das2goScalarVals rec := by
  unfold das2goScalars at h
  obtain ⟨v1, h1, h⟩ := except_bind_ok h
  obtain ⟨v2, h2, h⟩ := except_bind_ok h
  obtain ⟨v3, h3, h⟩ := except_bind_ok h
  obtain ⟨v4, h4, h⟩ := except_bind_ok h
  obtain ⟨v5, h5, h⟩ := except_bind_ok h
  obtain ⟨v6, h6, h⟩ := except_bind_ok h
  obtain ⟨v7, h7, h⟩ := except_bind_ok h
  obtain ⟨v8, h8, hr⟩ := except_map_ok h
  rw [hr, floatOrZero_ok h1, floatOrZero_ok h2, floatOrZero_ok h3, floatOrZero_ok h4,
      das2goMemory_ok h5, das2goCPU_ok h6, das2goNThr_ok h7, floatOrZero_ok h8]
  rfl

theorem jlookup_fromUnmarshal {rec : RawSnapshot} {k : String} {v : JValue}
    (hu : unmarshaledSnapshot rec = true) (hl : jlookup rec k = some v) :
    v.fromUnmarshal = true := by
  induction rec with
  | nil => cases hl
  | cons p rest ih =>
      unfold unmarshaledSnapshot at hu
      rw [List.all_cons, Bool.and_eq_true] at hu
      unfold jlookup at hl
      split at hl
      · exact (Option.some.inj hl) ▸ hu.1
      · exact ih hu.2 hl

/-- The declared das2go fields all extract without a failed type
assertion, and the Connections value (if present) is a value that
`json.Unmarshal` can produce. -/
def das2goWellTyped (rec : RawSnapshot) : Bool :=
  exIsOk (das2goScalars rec) &&
    (match jlookup rec "Connections" with
     | some v => v.fromUnmarshal
     | none => true)

theorem das2goConn_not_jarr2 {rec : RawSnapshot} {g : ConnGauges}
    (hc : ∀ v, jlookup rec "Connections" = some v → v.fromUnmarshal = true) :
    das2goConn rec g = .ok ([], g) := by
  unfold das2goConn
  cases hcl : jlookup rec "Connections" with
  | none => rfl
  | some v =>
      have := hc v hcl
      cases v <;> simp_all [JValue.fromUnmarshal]

theorem das2goMap_wellTyped {rec : RawSnapshot} (g : ConnGauges)
    (h : das2goWellTyped rec = true) :
    das2goMap rec g = (.ok (das2goScalarVals rec), g) := by
  unfold das2goWellTyped at h
  rw [Bool.and_eq_true] at h
  obtain ⟨hs, hc⟩ := h
  obtain ⟨l, hl⟩ := (exIsOk_iff _).mp hs
  unfold das2goMap
  rw [hl]
  rw [das2goConn_not_jarr2 (fun v hv => by rw [hv] at hc; exact hc)]
  rw [das2goScalars_ok hl]
  simp

/-!
## src/unnamed/part_000 — the wmcore exporter
-/

/-- The Connections block of part_000's `collect` (lines 236-255): the
same single-case `switch v.(type) { case [][]interface{} }` as das2go,
with the gauge vector namespace "wmcore" (flag default).  On the
unreachable `[][]interface{}` case the three just-set gauge entries are
collected; the emission is modelled directly from the fresh counts since
the branch always sets all three entries before collecting. -/
def part000Conn (rec : RawSnapshot) : Except String (List MetricSample) :=
  match jlookup rec "connections" with
  | none => .ok []
  | some (.jarr2 connections) =>
      (connLoopLast connections 0 0).map fun p =>
        connGaugesCollect "wmcore"
          ⟨some (.fin ((connections.length : ℚ))), some (.fin ((p.1 : ℚ))),
           some (.fin ((p.2 : ℚ)))⟩
  | some _ => .ok []

/-- The Field Mapper of part_000's `collect` (lines 209-262): five
comma-ok/assert scalar extractions, the Connections block, then the five
sends of lines 257-261.  Line 261 sends the num_fds value under the
`e.numThreads` descriptor; the declared `e.numFds` descriptor is never
used. -/
def part000Collect (rec : RawSnapshot) : Except String (List MetricSample) :=
  (floatOrZero rec "memory_percent").bind fun mempct =>
  (floatOrZero rec "cpu_percent").bind fun cpupct =>
  (floatOrZero rec "num_threads").bind fun nthr =>
  (floatOrZero rec "num_fds").bind fun nfds =>
  (floatOrZero rec "uptime").bind fun uptime =>
  (part000Conn rec).map fun connSamples =>
    connSamples ++
    [ ⟨buildFQName "wmcore" "" "uptime", [], uptime⟩,
      ⟨buildFQName "wmcore" "" "memory_percent", [], mempct⟩,
      ⟨buildFQName "wmcore" "" "cpu_percent", [], cpupct⟩,
      ⟨buildFQName "wmcore" "" "num_threads", [], nthr⟩,
      ⟨buildFQName "wmcore" "" "num_threads", [], nfds⟩ ]

/-- The connection samples of part_000's `collect` as a total function
(empty unless the unreachable `[][]interface{}` case is hit). -/
def part000ConnVal (rec : RawSnapshot) : List MetricSample :=
  match part000Conn rec with
  | .ok cs => cs
  | .error _ => []

/-- The scalar tail of part_000's sample list as a total function of the
snapshot. -/
def part000ScalarVals (rec : RawSnapshot) : List MetricSample :=
  [ ⟨buildFQName "wmcore" "" "uptime", [], floatOrZeroVal rec "uptime"⟩,
    ⟨buildFQName "wmcore" "" "memory_percent", [], floatOrZeroVal rec "memory_percent"⟩,
    ⟨buildFQName "wmcore" "" "cpu_percent", [], floatOrZeroVal rec "cpu_percent"⟩,
    ⟨buildFQName "wmcore" "" "num_threads", [], floatOrZeroVal rec "num_threads"⟩,
    ⟨buildFQName "wmcore" "" "num_threads", [], floatOrZeroVal rec "num_fds"⟩ ]

theorem part000Collect_ok {rec : RawSnapshot} {samples : List MetricSample}
    (h : part000Collect rec = .ok samples) :
    samples = part000ConnVal rec ++ part000ScalarVals rec := by
  unfold part000Collect at h
  obtain ⟨v1, h1, h⟩ := except_bind_ok h
  obtain ⟨v2, h2, h⟩ := except_bind_ok h
  obtain ⟨v3, h3, h⟩ := except_bind_ok h
  obtain ⟨v4, h4, h⟩ := except_bind_ok h
  obtain ⟨v5, h5, h⟩ := except_bind_ok h
  obtain ⟨cs, hcs, hr⟩ := except_map_ok h
  rw [hr, floatOrZero_ok h1, floatOrZero_ok h2, floatOrZero_ok h3, floatOrZero_ok h4,
      floatOrZero_ok h5]
  unfold part000ConnVal
  rw [hcs]
  rfl

theorem part000Conn_names {rec : RawSnapshot} {cs : List MetricSample}
    (h : part000Conn rec = .ok cs) :
    ∀ m ∈ cs, m.name = buildFQName "wmcore" "" "connections" := by
  unfold part000Conn at h
  split at h
  · simp_all
  · next connections heq =>
      obtain ⟨p, hp, hcs⟩ := except_map_ok h
      subst hcs
      intro m hm
      unfold connGaugesCollect at hm
      simp at hm
      rcases hm with hm | hm | hm <;> rw [hm]
  · simp_all

/-- Every declared part_000 field extracts without a failed type
assertion and the connections value, if present, is unmarshalled data. -/
def part000WellTyped (rec : RawSnapshot) : Bool :=
  exIsOk (floatOrZero rec "memory_percent") &&
  exIsOk (floatOrZero rec "cpu_percent") &&
  exIsOk (floatOrZero rec "num_threads") &&
  exIsOk (floatOrZero rec "num_fds") &&
  exIsOk (floatOrZero rec "uptime") &&
  (match jlookup rec "connections" with
   | some v => v.fromUnmarshal
   | none => true)

theorem part000Conn_not_jarr2 {rec : RawSnapshot}
    (hc : ∀ v, jlookup rec "connections" = some v → v.fromUnmarshal = true) :
    part000Conn rec = .ok [] := by
  unfold part000Conn
  cases hcl : jlookup rec "connections" with
  | none => rfl
  | some v =>
      have := hc v hcl
      cases v <;> simp_all [JValue.fromUnmarshal]

theorem part000Collect_wellTyped {rec : RawSnapshot}
    (h : part000WellTyped rec = true) :
    part000Collect rec = .ok (part000ScalarVals rec) := by
  unfold part000WellTyped at h
  simp only [Bool.and_eq_true] at h
  obtain ⟨⟨⟨⟨⟨h1, h2⟩, h3⟩, h4⟩, h5⟩, hc⟩ := h
  obtain ⟨a1, ha1⟩ := (exIsOk_iff _).mp h1
  obtain ⟨a2, ha2⟩ := (exIsOk_iff _).mp h2
  obtain ⟨a3, ha3⟩ := (exIsOk_iff _).mp h3
  obtain ⟨a4, ha4⟩ := (exIsOk_iff _).mp h4
  obtain ⟨a5, ha5⟩ := (exIsOk_iff _).mp h5
  have hconn : part000Conn rec = .ok [] :=
    part000Conn_not_jarr2 (fun v hv => by rw [hv] at hc; exact hc)
  unfold part000Collect
  rw [ha1, ha2, ha3, ha4, ha5]
  simp only [Except.bind]
  rw [hconn]
  simp only [Except.map, List.nil_append]
  rw [floatOrZero_ok ha1, floatOrZero_ok ha2, floatOrZero_ok ha3, floatOrZero_ok ha4,
      floatOrZero_ok ha5]
  rfl

/-!
## src/unnamed/part_003 — the extended das2go exporter
-/

/-- Asserted float64 lookup inside an object, `vm[key].(float64)`
(a missing key yields a nil interface, whose assertion panics as well). -/
def mustFloat (vm : List (String × JValue)) (key : String) : Except String GoFloat :=
  match jlookup vm key with
  | some (.jnum x) => .ok x
  | _ => .error typeAssertPanic

/-- Total value function of `mustFloat`. -/
def mustFloatVal (vm : List (String × JValue)) (key : String) : GoFloat :=
  match jlookup vm key with
  | some (.jnum x) => x
  | _ => .fin 0

theorem mustFloat_ok {vm : List (String × JValue)} {key : String} {v : GoFloat}
    (h : mustFloat vm key = .ok v) : v = mustFloatVal vm key := by
  unfold mustFloat at h
  unfold mustFloatVal
  repeat' split at h
  all_goals simp_all

/-- The Virtual sub-block of part_003's Memory extraction (lines
361-367): `v := r.(map[string]interface{})` then four unchecked float64
assertions for usedPercent, total, used, free. -/
def part003Virtual (mem : List (String × JValue)) :
    Except String (GoFloat × GoFloat × GoFloat × GoFloat) :=
  match jlookup mem "Virtual" with
  | none => .ok (.fin 0, .fin 0, .fin 0, .fin 0)
  | some (.jobj vm) =>
      (mustFloat vm "usedPercent").bind fun mempct =>
      (mustFloat vm "total").bind fun memtotal =>
      (mustFloat vm "used").bind fun memused =>
      (mustFloat vm "free").map fun memfree => (mempct, memtotal, memused, memfree)
  | some _ => .error typeAssertPanic

/-- The Swap sub-block of part_003's Memory extraction (lines 368-371). -/
def part003Swap (mem : List (String × JValue)) : Except String GoFloat :=
  match jlookup mem "Swap" with
  | none => .ok (.fin 0)
  | some (.jobj vm) => mustFloat vm "usedPercent"
  | some _ => .error typeAssertPanic

/-- The Memory block of part_003's `collect` (lines 357-372).  Result
order: (mempct, memtotal, memused, memfree, swappct). -/
def part003Memory (rec : RawSnapshot) :
    Except String (GoFloat × GoFloat × GoFloat × GoFloat × GoFloat) :=
  match jlookup rec "Memory" with
  | none => .ok (.fin 0, .fin 0, .fin 0, .fin 0, .fin 0)
  | some (.jobj mem) =>
      (part003Virtual mem).bind fun v4 =>
      (part003Swap mem).map fun swappct => (v4.1, v4.2.1, v4.2.2.1, v4.2.2.2, swappct)
  | some _ => .error typeAssertPanic

/-- Total value of the Virtual sub-block. -/
def part003VirtualVal (mem : List (String × JValue)) :
    GoFloat × GoFloat × GoFloat × GoFloat :=
  match jlookup mem "Virtual" with
  | some (.jobj vm) =>
      (mustFloatVal vm "usedPercent", mustFloatVal vm "total",
       mustFloatVal vm "used", mustFloatVal vm "free")
  | _ => (.fin 0, .fin 0, .fin 0, .fin 0)

/-- Total value of the Swap sub-block. -/
def part003SwapVal (mem : List (String × JValue)) : GoFloat :=
  match jlookup mem "Swap" with
  | some (.jobj vm) => mustFloatVal vm "usedPercent"
  | _ => .fin 0

/-- Total value function of `part003Memory`. -/
def part003MemoryVal (rec : RawSnapshot) :
    GoFloat × GoFloat × GoFloat × GoFloat × GoFloat :=
  match jlookup rec "Memory" with
  | some (.jobj mem) =>
      ((part003VirtualVal mem).1, (part003VirtualVal mem).2.1,
       (part003VirtualVal mem).2.2.1, (part003VirtualVal mem).2.2.2,
       part003SwapVal mem)
  | _ => (.fin 0, .fin 0, .fin 0, .fin 0, .fin 0)

theorem part003Virtual_ok {mem : List (String × JValue)}
    {v : GoFloat × GoFloat × GoFloat × GoFloat}
    (h : part003Virtual mem = .ok v) : v = part003VirtualVal mem := by
  unfold part003Virtual at h
  unfold part003VirtualVal
  split at h
  · simp_all
  · next vm heq =>
      rw [heq]
      obtain ⟨a, ha, h⟩ := except_bind_ok h
      obtain ⟨b, hb, h⟩ := except_bind_ok h
      obtain ⟨c, hc, h⟩ := except_bind_ok h
      obtain ⟨d, hd, h⟩ := except_map_ok h
      rw [h, mustFloat_ok ha, mustFloat_ok hb, mustFloat_ok hc, mustFloat_ok hd]
  · cases h

theorem part003Swap_ok {mem : List (String × JValue)} {v : GoFloat}
    (h : part003Swap mem = .ok v) : v = part003SwapVal mem := by
  unfold part003Swap at h
  unfold part003SwapVal
  split at h
  · simp_all
  · next vm heq => rw [heq]; exact mustFloat_ok h
  · cases h

theorem part003Memory_ok {rec : RawSnapshot}
    {p : GoFloat × GoFloat × GoFloat × GoFloat × GoFloat}
    (h : part003Memory rec = .ok p) : p = part003MemoryVal rec := by
  unfold part003Memory at h
  unfold part003MemoryVal
  split at h
  · simp_all
  · next mem heq =>
      rw [heq]
      obtain ⟨v4, h4, h⟩ := except_bind_ok h
      obtain ⟨sw, hsw, hp⟩ := except_map_ok h
      rw [hp, part003Virtual_ok h4, part003Swap_ok hsw]
  · cases h

/-- The MemStats block of part_003's `collect` (lines 373-391): asserted
object, then comma-ok/assert extraction of Sys, Alloc, TotalAlloc,
HeapSys and StackSys. -/
def part003MemStats (rec : RawSnapshot) :
    Except String (GoFloat × GoFloat × GoFloat × GoFloat × GoFloat) :=
  match jlookup rec "MemStats" with
  | none => .ok (.fin 0, .fin 0, .fin 0, .fin 0, .fin 0)
  | some (.jobj mem) =>
      (floatOrZero mem "Sys").bind fun s =>
      (floatOrZero mem "Alloc").bind fun a =>
      (floatOrZero mem "TotalAlloc").bind fun t =>
      (floatOrZero mem "HeapSys").bind fun hs =>
      (floatOrZero mem "StackSys").map fun ss => (s, a, t, hs, ss)
  | some _ => .error typeAssertPanic

/-- Total value function of `part003MemStats`. -/
def part003MemStatsVal (rec : RawSnapshot) :
    GoFloat × GoFloat × GoFloat × GoFloat × GoFloat :=
  match jlookup rec "MemStats" with
  | some (.jobj mem) =>
      (floatOrZeroVal mem "Sys", floatOrZeroVal mem "Alloc",
       floatOrZeroVal mem "TotalAlloc", floatOrZeroVal mem "HeapSys",
       floatOrZeroVal mem "StackSys")
  | _ => (.fin 0, .fin 0, .fin 0, .fin 0, .fin 0)

theorem part003MemStats_ok {rec : RawSnapshot}
    {p : GoFloat × GoFloat × GoFloat × GoFloat × GoFloat}
    (h : part003MemStats rec = .ok p) : p = part003MemStatsVal rec := by
  unfold part003MemStats at h
  unfold part003MemStatsVal
  split at h
  · simp_all
  · next mem heq =>
      rw [heq]
      obtain ⟨a, ha, h⟩ := except_bind_ok h
      obtain ⟨b, hb, h⟩ := except_bind_ok h
      obtain ⟨c, hc, h⟩ := except_bind_ok h
      obtain ⟨d, hd, h⟩ := except_bind_ok h
      obtain ⟨e, he, h⟩ := except_map_ok h
      rw [h, floatOrZero_ok ha, floatOrZero_ok hb, floatOrZero_ok hc,
          floatOrZero_ok hd, floatOrZero_ok he]
  · cases h

/-- The CPU block of part_003's `collect` (lines 392-401): assert
`[]interface{}`, assert every element to float64 building the `cores`
list in input order, and compute `cpupct` as the sum divided by the
length — unguarded, so an empty array gives 0/0 = NaN. -/
def part003CPU (rec : RawSnapshot) : Except String (List GoFloat × GoFloat) :=
  match jlookup rec "CPU" with
  | none => .ok ([], .fin 0)
  | some (.jarr cpus) =>
      (asNums cpus).map fun cores =>
        (cores, (goSum cores).div (.fin ((cpus.length : ℚ))))
  | some _ => .error typeAssertPanic

/-- Total value function of `part003CPU`. -/
def part003CPUVal (rec : RawSnapshot) : List GoFloat × GoFloat :=
  match jlookup rec "CPU" with
  | some (.jarr cpus) =>
      (asNumsVal cpus, (goSum (asNumsVal cpus)).div (.fin ((cpus.length : ℚ))))
  | _ => ([], .fin 0)

theorem part003CPU_ok {rec : RawSnapshot} {p : List GoFloat × GoFloat}
    (h : part003CPU rec = .ok p) : p = part003CPUVal rec := by
  unfold part003CPU at h
  unfold part003CPUVal
  split at h
  · simp_all
  · next cpus heq =>
      rw [heq]
      obtain ⟨cores, hc, hp⟩ := except_map_ok h
      rw [hp, asNums_ok hc]
  · cases h

/-- The Load block of part_003's `collect` (lines 402-414): asserted
object, then comma-ok/assert extraction of load1, load5, load15. -/
def part003Load (rec : RawSnapshot) : Except String (GoFloat × GoFloat × GoFloat) :=
  match jlookup rec "Load" with
  | none => .ok (.fin 0, .fin 0, .fin 0)
  | some (.jobj load) =>
      (floatOrZero load "load1").bind fun l1 =>
      (floatOrZero load "load5").bind fun l5 =>
      (floatOrZero load "load15").map fun l15 => (l1, l5, l15)
  | some _ => .error typeAssertPanic

/-- Total value function of `part003Load`. -/
def part003LoadVal (rec : RawSnapshot) : GoFloat × GoFloat × GoFloat :=
  match jlookup rec "Load" with
  | some (.jobj load) =>
      (floatOrZeroVal load "load1", floatOrZeroVal load "load5",
       floatOrZeroVal load "load15")
  | _ => (.fin 0, .fin 0, .fin 0)

theorem part003Load_ok {rec : RawSnapshot} {p : GoFloat × GoFloat × GoFloat}
    (h : part003Load rec = .ok p) : p = part003LoadVal rec := by
  unfold part003Load at h
  unfold part003LoadVal
  split at h
  · simp_all
  · next load heq =>
      rw [heq]
      obtain ⟨a, ha, h⟩ := except_bind_ok h
      obtain ⟨b, hb, h⟩ := except_bind_ok h
      obtain ⟨c, hc, h⟩ := except_map_ok h
      rw [h, floatOrZero_ok ha, floatOrZero_ok hb, floatOrZero_ok hc]
  · cases h

/-- The OpenFiles block of part_003's `collect` (lines 415-419): assert
`[]interface{}` and publish the length. -/
def part003OpenFiles (rec : RawSnapshot) : Except String GoFloat :=
  match jlookup rec "OpenFiles" with
  | none => .ok (.fin 0)
  | some (.jarr files) => .ok (.fin ((files.length : ℚ)))
  | some _ => .error typeAssertPanic

/-- Total value function of `part003OpenFiles`. -/
def part003OpenFilesVal (rec : RawSnapshot) : GoFloat :=
  match jlookup rec "OpenFiles" with
  | some (.jarr files) => .fin ((files.length : ℚ))
  | _ => .fin 0

theorem part003OpenFiles_ok {rec : RawSnapshot} {v : GoFloat}
    (h : part003OpenFiles rec = .ok v) : v = part003OpenFilesVal rec := by
  unfold part003OpenFiles at h
  unfold part003OpenFilesVal
  repeat' split at h
  all_goals simp_all

/-- The connection loop of part_003's `collect` (lines 436-445): each
element must assert to `map[string]interface{}`; its "status" entry (nil
when absent, no assertion) is compared against the two state strings. -/
def connLoopStatus : List JValue → ℕ → ℕ → Except String (ℕ × ℕ)
  | [], estCon, lisCon => .ok (estCon, lisCon)
  | .jobj con :: rest, estCon, lisCon =>
      (match jlookup con "status" with
       | some (.jstr s) =>
           if s = "ESTABLISHED" then connLoopStatus rest (estCon + 1) lisCon
           else if s = "LISTEN" then connLoopStatus rest estCon (lisCon + 1)
           else connLoopStatus rest estCon lisCon
       | _ => connLoopStatus rest estCon lisCon)
  | _ :: _, _, _ => .error typeAssertPanic

/-- The Connections block of part_003's `collect` (lines 432-448):
`switch connections := v.(type)` with the single `case []interface{}` and
no default — counts default to zero when the key is absent or the value
is no `[]interface{}`.  Result order: (totCon, estCon, lisCon). -/
def part003Conn (rec : RawSnapshot) : Except String (ℕ × ℕ × ℕ) :=
  match jlookup rec "Connections" with
  | none => .ok (0, 0, 0)
  | some (.jarr connections) =>
      (connLoopStatus connections 0 0).map fun p => (connections.length, p.1, p.2)
  | some _ => .ok (0, 0, 0)

/-- Whether a connection row (part_003 style) is an object whose "status"
entry is the given state string. -/
def statusIs (st : String) (c : JValue) : Bool :=
  match c with
  | .jobj con =>
      (match jlookup con "status" with
       | some (.jstr s) => s == st
       | _ => false)
  | _ => false

/-- Whether a connection row (das2go/part_000 style) has the given state
string as its last element. -/
def lastIs (st : String) (c : List JValue) : Bool :=
  match c.getLast? with
  | some (.jstr s) => s == st
  | _ => false

theorem connLoopStatus_ok : ∀ {l : List JValue} {e li : ℕ} {p : ℕ × ℕ},
    connLoopStatus l e li = .ok p →
    p = (e + l.countP (statusIs "ESTABLISHED"), li + l.countP (statusIs "LISTEN")) := by
  intro l
  induction l with
  | nil =>
      intro e li p h
      simp [connLoopStatus] at h
      simp [h.symm]
  | cons c rest ih =>
      intro e li p h
      cases c with
      | jobj con =>
          unfold connLoopStatus at h
          cases hst : jlookup con "status" with
          | none =>
              rw [hst] at h
              have hp := ih h
              rw [hp]
              simp [List.countP_cons, statusIs, hst]
          | some v =>
              cases v with
              | jstr s =>
                  by_cases hE : s = "ESTABLISHED"
                  · simp only [hst, hE, reduceIte] at h
                    have hp := ih h
                    rw [hp]
                    simp [List.countP_cons, statusIs, hst, hE, Prod.ext_iff]
                    omega
                  · by_cases hL : s = "LISTEN"
                    · simp only [hst, hE, hL, reduceIte] at h
                      have hp := ih h
                      rw [hp]
                      simp [List.countP_cons, statusIs, hst, hE, hL, Prod.ext_iff]
                      omega
                    · simp only [hst, hE, hL, reduceIte] at h
                      have hp := ih h
                      rw [hp]
                      simp [List.countP_cons, statusIs, hst, hE, hL]
              | jnum x => simp only [hst] at h; have hp := ih h; rw [hp]; simp [List.countP_cons, statusIs, hst]
              | jbool b => simp only [hst] at h; have hp := ih h; rw [hp]; simp [List.countP_cons, statusIs, hst]
              | jnull => simp only [hst] at h; have hp := ih h; rw [hp]; simp [List.countP_cons, statusIs, hst]
              | jarr a => simp only [hst] at h; have hp := ih h; rw [hp]; simp [List.countP_cons, statusIs, hst]
              | jarr2 a => simp only [hst] at h; have hp := ih h; rw [hp]; simp [List.countP_cons, statusIs, hst]
              | jobj o => simp only [hst] at h; have hp := ih h; rw [hp]; simp [List.countP_cons, statusIs, hst]
      | jnum x => cases h
      | jstr s => cases h
      | jbool b => cases h
      | jnull => cases h
      | jarr a => cases h
      | jarr2 a => cases h

theorem connLoopLast_ok : ∀ {l : List (List JValue)} {e li : ℕ} {p : ℕ × ℕ},
    connLoopLast l e li = .ok p →
    p = (e + l.countP (lastIs "ESTABLISHED"), li + l.countP (lastIs "LISTEN")) := by
  intro l
  induction l with
  | nil =>
      intro e li p h
      simp [connLoopLast] at h
      simp [h.symm]
  | cons c rest ih =>
      intro e li p h
      unfold connLoopLast at h
      cases hlast : c.getLast? with
      | none => simp [hlast] at h
      | some v =>
          cases v with
          | jstr s =>
              by_cases hE : s = "ESTABLISHED"
              · simp only [hlast, hE, reduceIte] at h
                have hp := ih h
                rw [hp]
                simp [List.countP_cons, lastIs, hlast, hE, Prod.ext_iff]
                omega
              · by_cases hL : s = "LISTEN"
                · simp only [hlast, hE, hL, reduceIte] at h
                  have hp := ih h
                  rw [hp]
                  simp [List.countP_cons, lastIs, hlast, hE, hL, Prod.ext_iff]
                  omega
                · simp only [hlast, hE, hL, reduceIte] at h
                  have hp := ih h
                  rw [hp]
                  simp [List.countP_cons, lastIs, hlast, hE, hL]
          | jnum x => simp [hlast] at h
          | jbool b => simp [hlast] at h
          | jnull => simp [hlast] at h
          | jarr a => simp [hlast] at h
          | jarr2 a => simp [hlast] at h
          | jobj o => simp [hlast] at h

/-- The part_003 connection-state classification of one connection list:
the status loop plus the total count (lines 436-446). -/
def classifyConnStatus (connections : List JValue) : Except String (ℕ × ℕ × ℕ) :=
  (connLoopStatus connections 0 0).map fun p => (connections.length, p.1, p.2)

/-- The das2go/part_000 connection-state classification of one
(`[][]interface{}`) connection list: the last-element loop plus the total
count (das2go lines 290-300). -/
def classifyConnLast (connections : List (List JValue)) : Except String (ℕ × ℕ × ℕ) :=
  (connLoopLast connections 0 0).map fun p => (connections.length, p.1, p.2)

theorem classifyConnStatus_ok {l : List JValue} {a : ℕ × ℕ × ℕ}
    (h : classifyConnStatus l = .ok a) :
    a = (l.length, l.countP (statusIs "ESTABLISHED"), l.countP (statusIs "LISTEN")) := by
  unfold classifyConnStatus at h
  obtain ⟨p, hp, ha⟩ := except_map_ok h
  rw [ha, connLoopStatus_ok hp]
  simp

theorem classifyConnLast_ok {l : List (List JValue)} {a : ℕ × ℕ × ℕ}
    (h : classifyConnLast l = .ok a) :
    a = (l.length, l.countP (lastIs "ESTABLISHED"), l.countP (lastIs "LISTEN")) := by
  unfold classifyConnLast at h
  obtain ⟨p, hp, ha⟩ := except_map_ok h
  rw [ha, connLoopLast_ok hp]
  simp

/-- Total value function of `part003Conn`. -/
def part003ConnVal (rec : RawSnapshot) : ℕ × ℕ × ℕ :=
  match jlookup rec "Connections" with
  | some (.jarr connections) =>
      (connections.length, connections.countP (statusIs "ESTABLISHED"),
       connections.countP (statusIs "LISTEN"))
  | _ => (0, 0, 0)

theorem part003Conn_ok {rec : RawSnapshot} {p : ℕ × ℕ × ℕ}
    (h : part003Conn rec = .ok p) : p = part003ConnVal rec := by
  unfold part003Conn at h
  unfold part003ConnVal
  split at h
  · simp_all
  · next connections heq =>
      rw [heq]
      obtain ⟨q, hq, hp⟩ := except_map_ok h
      rw [hp, connLoopStatus_ok hq]
      simp
  · simp_all

/-- All values extracted by part_003's `collect` before emission. -/
structure Part003Vals where
  getCalls : GoFloat
  postCalls : GoFloat
  getRequests : GoFloat
  postRequests : GoFloat
  memv : GoFloat × GoFloat × GoFloat × GoFloat × GoFloat
  mst : GoFloat × GoFloat × GoFloat × GoFloat × GoFloat
  cpu : List GoFloat × GoFloat
  loadv : GoFloat × GoFloat × GoFloat
  openFiles : GoFloat
  ngo : GoFloat
  nthr : GoFloat
  uptime : GoFloat
  conn : ℕ × ℕ × ℕ
deriving DecidableEq, Repr

/-- The extraction phase of part_003's `collect` (lines 344-448) in source
order; any failed type assertion aborts the whole mapping as a panic. -/
def part003Extract (rec : RawSnapshot) : Except String Part003Vals :=
  (floatOrZero rec "getCalls").bind fun getCalls =>
  (floatOrZero rec "postCalls").bind fun postCalls =>
  (floatOrZero rec "getRequests").bind fun getRequests =>
  (floatOrZero rec "postRequests").bind fun postRequests =>
  (part003Memory rec).bind fun memv =>
  (part003MemStats rec).bind fun mst =>
  (part003CPU rec).bind fun cpu =>
  (part003Load rec).bind fun loadv =>
  (part003OpenFiles rec).bind fun openFiles =>
  (floatOrZero rec "NGo").bind fun ngo =>
  (floatOrZero rec "NThreads").bind fun nthr =>
  (floatOrZero rec "Uptime").bind fun uptime =>
  (part003Conn rec).map fun conn =>
    ⟨getCalls, postCalls, getRequests, postRequests, memv, mst, cpu, loadv,
     openFiles, ngo, nthr, uptime, conn⟩

/-- Total value function of `part003Extract`. -/
def part003ExtractVal (rec : RawSnapshot) : Part003Vals :=
  ⟨floatOrZeroVal rec "getCalls", floatOrZeroVal rec "postCalls",
   floatOrZeroVal rec "getRequests", floatOrZeroVal rec "postRequests",
   part003MemoryVal rec, part003MemStatsVal rec, part003CPUVal rec,
   part003LoadVal rec, part003OpenFilesVal rec, floatOrZeroVal rec "NGo",
   floatOrZeroVal rec "NThreads", floatOrZeroVal rec "Uptime",
   part003ConnVal rec⟩

theorem part003Extract_ok {rec : RawSnapshot} {v : Part003Vals}
    (h : part003Extract rec = .ok v) : v = part003ExtractVal rec := by
  unfold part003Extract at h
  obtain ⟨a1, h1, h⟩ := except_bind_ok h
  obtain ⟨a2, h2, h⟩ := except_bind_ok h
  obtain ⟨a3, h3, h⟩ := except_bind_ok h
  obtain ⟨a4, h4, h⟩ := except_bind_ok h
  obtain ⟨a5, h5, h⟩ := except_bind_ok h
  obtain ⟨a6, h6, h⟩ := except_bind_ok h
  obtain ⟨a7, h7, h⟩ := except_bind_ok h
  obtain ⟨a8, h8, h⟩ := except_bind_ok h
  obtain ⟨a9, h9, h⟩ := except_bind_ok h
  obtain ⟨a10, h10, h⟩ := except_bind_ok h
  obtain ⟨a11, h11, h⟩ := except_bind_ok h
  obtain ⟨a12, h12, h⟩ := except_bind_ok h
  obtain ⟨a13, h13, hv⟩ := except_map_ok h
  rw [hv, floatOrZero_ok h1, floatOrZero_ok h2, floatOrZero_ok h3, floatOrZero_ok h4,
      part003Memory_ok h5, part003MemStats_ok h6, part003CPU_ok h7, part003Load_ok h8,
      part003OpenFiles_ok h9, floatOrZero_ok h10, floatOrZero_ok h11,
      floatOrZero_ok h12, part003Conn_ok h13]
  rfl

/-- The labeled per-core samples (part_003 lines 466-469): one
`cores_percent` sample per core index in input order, label
`core-<index>`. -/
def part003CoresSamples (cores : List GoFloat) : List MetricSample :=
  cores.enum.map fun p =>
    ⟨buildFQName "das2go" "" "cores_percent", ["core-" ++ toString p.1], p.2⟩

/-- The emission phase of part_003's `collect` (lines 450-478) in source
order (note memory_free before memory_used, and listen_connections before
established_connections, as in the source). -/
def part003Emit (v : Part003Vals) : List MetricSample :=
  [ ⟨buildFQName "das2go" "" "get_calls", [], v.getCalls⟩,
    ⟨buildFQName "das2go" "" "post_calls", [], v.postCalls⟩,
    ⟨buildFQName "das2go" "" "get_requests", [], v.getRequests⟩,
    ⟨buildFQName "das2go" "" "post_requests", [], v.postRequests⟩,
    ⟨buildFQName "das2go" "" "uptime", [], v.uptime⟩,
    ⟨buildFQName "das2go" "" "memory_percent", [], v.memv.1⟩,
    ⟨buildFQName "das2go" "" "memory_total", [], v.memv.2.1⟩,
    ⟨buildFQName "das2go" "" "memory_free", [], v.memv.2.2.2.1⟩,
    ⟨buildFQName "das2go" "" "memory_used", [], v.memv.2.2.1⟩,
    ⟨buildFQName "das2go" "" "memstats_sys", [], v.mst.1⟩,
    ⟨buildFQName "das2go" "" "memstats_alloc", [], v.mst.2.1⟩,
    ⟨buildFQName "das2go" "" "memstats_tot_alloc", [], v.mst.2.2.1⟩,
    ⟨buildFQName "das2go" "" "memstats_heap_sys", [], v.mst.2.2.2.1⟩,
    ⟨buildFQName "das2go" "" "memstats_stack_sys", [], v.mst.2.2.2.2⟩,
    ⟨buildFQName "das2go" "" "swap_percent", [], v.memv.2.2.2.2⟩,
    ⟨buildFQName "das2go" "" "cpu_percent", [], v.cpu.2⟩ ] ++
  part003CoresSamples v.cpu.1 ++
  [ ⟨buildFQName "das2go" "" "num_threads", [], v.nthr⟩,
    ⟨buildFQName "das2go" "" "num_go_routines", [], v.ngo⟩,
    ⟨buildFQName "das2go" "" "load1", [], v.loadv.1⟩,
    ⟨buildFQName "das2go" "" "load5", [], v.loadv.2.1⟩,
    ⟨buildFQName "das2go" "" "load15", [], v.loadv.2.2⟩,
    ⟨buildFQName "das2go" "" "open_files", [], v.openFiles⟩,
    ⟨buildFQName "das2go" "" "total_connections", [], .fin ((v.conn.1 : ℚ))⟩,
    ⟨buildFQName "das2go" "" "listen_connections", [], .fin ((v.conn.2.2 : ℚ))⟩,
    ⟨buildFQName "das2go" "" "established_connections", [], .fin ((v.conn.2.1 : ℚ))⟩ ]

/-- The Field Mapper of part_003: `collect` after a successful fetch and
unmarshal (lines 336-479): extract all declared fields, then emit. -/
def part003Collect (rec : RawSnapshot) : Except String (List MetricSample) :=
  (part003Extract rec).map part003Emit

/-- Every declared part_003 field extracts without a failed type
assertion. -/
def part003WellTyped (rec : RawSnapshot) : Bool :=
  exIsOk (part003Extract rec)

theorem part003Collect_wellTyped {rec : RawSnapshot}
    (h : part003WellTyped rec = true) :
    part003Collect rec = .ok (part003Emit (part003ExtractVal rec)) := by
  unfold part003WellTyped at h
  obtain ⟨v, hv⟩ := (exIsOk_iff _).mp h
  unfold part003Collect
  rw [hv]
  rw [part003Extract_ok hv]
  rfl

/-!
## Arithmetic facts about the GoFloat model
-/

theorem goSum_fin_aux : ∀ (xs : List ℚ) (a : ℚ),
    List.foldl GoFloat.add (.fin a) (xs.map GoFloat.fin) = .fin (a + xs.sum) := by
  intro xs
  induction xs with
  | nil => intro a; simp
  | cons x xs ih =>
      intro a
      simp only [List.map_cons, List.foldl_cons, GoFloat.add, ih, List.sum_cons]
      rw [add_assoc]

theorem goSum_fin (xs : List ℚ) : goSum (xs.map GoFloat.fin) = .fin xs.sum := by
  unfold goSum
  rw [goSum_fin_aux]
  rw [zero_add]

theorem asNumsVal_map_fin (xs : List ℚ) :
    asNumsVal (xs.map fun q => .jnum (.fin q)) = xs.map GoFloat.fin := by
  induction xs with
  | nil => rfl
  | cons x xs ih => simp [asNumsVal, ih]

theorem goFloat_div_fin {a b : ℚ} (hb : b ≠ 0) :
    (GoFloat.fin a).div (.fin b) = .fin (a / b) := by
  simp [GoFloat.div, hb]

/-!
## The Publisher's mutual-exclusion guard

Every exporter's `Collect` has the shape

    e.mutex.Lock()          // acquire the guard
    defer e.mutex.Unlock()  // release when Collect returns
    ... e.collect(ch) ...   // fetch, then map, then emit/serialize

(das2go_exporter.go lines 203-212, http_exporter.go lines 168-177).  The
Prometheus handler serves each pull request on its own goroutine, so two
concurrent pulls are two threads running `Collect` on the same Exporter.
The model below is the control flow of two such threads: a thread moves
from idle into its fetch phase only by acquiring the free mutex, walks
through fetch → map → serialize while holding it, and releases it only
when done.
-/

/-- Phase of one pull-request thread inside `Collect`. -/
inductive Phase where
  | idle
  | fetching
  | mapping
  | serializing
  | finished
deriving DecidableEq, Repr

/-- Whether the thread is inside the scrape-map-serialize cycle (the
critical section guarded by `e.mutex`). -/
def Phase.busy : Phase → Bool
  | .fetching => true
  | .mapping => true
  | .serializing => true
  | _ => false

/-- Two pull-request threads and the exporter's mutex (`none` = free,
`some false` = held by thread 1, `some true` = held by thread 2). -/
structure PubSys where
  p1 : Phase
  p2 : Phase
  lockOwner : Option Bool
deriving DecidableEq, Repr

/-- Both threads idle, mutex free. -/
def pubInit : PubSys := ⟨.idle, .idle, none⟩

/-- Interleaving steps of the two `Collect` calls: `mutex.Lock()` succeeds
only when the mutex is free; the phase transitions inside `collect` keep
the mutex; `mutex.Unlock()` runs (via defer) when the cycle finished. -/
inductive PubStep : PubSys → PubSys → Prop where
  | acquire1 {s : PubSys} : s.lockOwner = none → s.p1 = .idle →
      PubStep s ⟨.fetching, s.p2, some false⟩
  | acquire2 {s : PubSys} : s.lockOwner = none → s.p2 = .idle →
      PubStep s ⟨s.p1, .fetching, some true⟩
  | fetchDone1 {s : PubSys} : s.p1 = .fetching →
      PubStep s ⟨.mapping, s.p2, s.lockOwner⟩
  | fetchDone2 {s : PubSys} : s.p2 = .fetching →
      PubStep s ⟨s.p1, .mapping, s.lockOwner⟩
  | mapDone1 {s : PubSys} : s.p1 = .mapping →
      PubStep s ⟨.serializing, s.p2, s.lockOwner⟩
  | mapDone2 {s : PubSys} : s.p2 = .mapping →
      PubStep s ⟨s.p1, .serializing, s.lockOwner⟩
  | release1 {s : PubSys} : s.p1 = .serializing → s.lockOwner = some false →
      PubStep s ⟨.finished, s.p2, none⟩
  | release2 {s : PubSys} : s.p2 = .serializing → s.lockOwner = some true →
      PubStep s ⟨s.p1, .finished, none⟩

/-- States reachable from the initial state by interleaving the two
pull-request threads. -/
def PubReach (s : PubSys) : Prop := Relation.ReflTransGen PubStep pubInit s

/-- The inductive invariant: a busy thread holds the mutex. -/
def PubInv (s : PubSys) : Prop :=
  (s.p1.busy = true → s.lockOwner = some false) ∧
  (s.p2.busy = true → s.lockOwner = some true)

theorem pubInv_step {s t : PubSys} (hinv : PubInv s) (hstep : PubStep s t) :
    PubInv t := by
  obtain ⟨h1, h2⟩ := hinv
  cases hstep with
  | acquire1 hfree hidle =>
      refine ⟨fun _ => rfl, fun hb => ?_⟩
      exact absurd (h2 hb) (by rw [hfree]; simp)
  | acquire2 hfree hidle =>
      refine ⟨fun hb => ?_, fun _ => rfl⟩
      exact absurd (h1 hb) (by rw [hfree]; simp)
  | fetchDone1 hp => exact ⟨fun _ => h1 (by rw [hp]; rfl), h2⟩
  | fetchDone2 hp => exact ⟨h1, fun _ => h2 (by rw [hp]; rfl)⟩
  | mapDone1 hp => exact ⟨fun _ => h1 (by rw [hp]; rfl), h2⟩
  | mapDone2 hp => exact ⟨h1, fun _ => h2 (by rw [hp]; rfl)⟩
  | release1 hp hown =>
      refine ⟨fun hb => by simp [Phase.busy] at hb, fun hb => ?_⟩
      have := h2 hb
      rw [hown] at this
      simp at this
  | release2 hp hown =>
      refine ⟨fun hb => ?_, fun hb => by simp [Phase.busy] at hb⟩
      have := h1 hb
      rw [hown] at this
      simp at this

theorem pubInv_reach {s : PubSys} (h : PubReach s) : PubInv s := by
  induction h with
  | refl => exact ⟨fun hb => by simp [pubInit, Phase.busy] at hb,
                   fun hb => by simp [pubInit, Phase.busy] at hb⟩
  | tail hr hstep ih => exact pubInv_step ih hstep

theorem part000ConnVal_names (rec : RawSnapshot) :
    ∀ m ∈ part000ConnVal rec, m.name = buildFQName "wmcore" "" "connections" := by
  unfold part000ConnVal
  cases h : part000Conn rec with
  | ok cs => simp only []; exact part000Conn_names h
  | error e => simp only []; intro m hm; cases hm

/-!
## The claims
-/

/-- C1, counterexample: the claim states that an external-command source
exiting non-zero makes collect report the failure as an error while the
exporter process continues running.  In the quota exporter a non-zero
command exit reaches `log.Fatal` inside `run` (src/quota_exporter.go
lines 174-177): the cycle outcome is process termination, not a served
error. -/
theorem claimC1_counterexample :
    quotaCycle (.failed 1) 0 0 = .fatal ∧
    (quotaCycle (.failed 1) 0 0).terminatesProcess = true := ⟨rfl, rfl⟩

/-- C1, amended: a failed scrape never terminates the process for the
HTTP status exporter (whose collect returns nil on every fetch outcome),
but the external-command (quota) exporter terminates through `log.Fatal`
on any non-zero command exit, and the cpy exporter's `Collect` terminates
through `log.Fatalf` on any collect error. -/
theorem claimC1_amended :
    (∀ (code failures : ℕ) (now : Int),
        quotaCycle (.failed code) failures now = .fatal) ∧
    (∀ msg : String, cpyCollect (.error msg) = .fatal) ∧
    (∀ (contentType : String) (f : FetchOutcome) (n : ℕ),
        (httpCycle contentType f n).terminatesProcess = false) :=
  ⟨fun _ _ _ => rfl, fun _ => rfl, fun _ _ _ => rfl⟩

/-- C2, counterexample: the claim states the Field Mapper never panics on
a type-mismatched declared field and yields zero.  das2go's mapper runs
`getCalls = v.(float64)` on the present string value and panics
(src/das2go_exporter.go lines 245-247); no sample is produced. -/
theorem claimC2_counterexample :
    (das2goMap [("getCalls", JValue.jstr "not-a-number")] connGauges0).1 =
      .panic typeAssertPanic := rfl

/-- C2, amended: the convert-based mapper of the cpy exporter returns
zero for any present field of non-number type without panicking, but the
das2go mapper's unchecked assertions panic on any present declared field
whose value is not a float64. -/
theorem claimC2_amended :
    (∀ (srv : List (String × JValue)) (key : String) (v : JValue),
        jlookup srv key = some v → v.isNum = false → convert srv key = .fin 0) ∧
    (∀ (v : JValue) (g : ConnGauges), v.isNum = false →
        (das2goMap [("getCalls", v)] g).1 = .panic typeAssertPanic) := by
  constructor
  · intro srv key v hl hnum
    unfold convert
    rw [hl]
    cases v with
    | jnum x => simp [JValue.isNum] at hnum
    | jstr s => rfl
    | jbool b => rfl
    | jnull => rfl
    | jarr a => rfl
    | jarr2 a => rfl
    | jobj o => rfl
  · intro v g hnum
    cases v with
    | jnum x => simp [JValue.isNum] at hnum
    | jstr s => rfl
    | jbool b => rfl
    | jnull => rfl
    | jarr a => rfl
    | jarr2 a => rfl
    | jobj o => rfl

theorem claimC2_witness :
    convert [("threads", JValue.jstr "x")] "threads" = .fin 0 ∧
    (das2goMap [("getCalls", JValue.jstr "42")] connGauges0).1 =
      .panic typeAssertPanic :=
  ⟨claimC2_amended.1 [("threads", JValue.jstr "x")] "threads" (JValue.jstr "x") rfl rfl,
   claimC2_amended.2 (JValue.jstr "42") connGauges0 rfl⟩

/-- C3, counterexample: the claim states that whenever a declared field
path is absent the mapper still emits that field's sample with value zero
and never fails the whole mapping.  On this snapshot memory_percent is
absent, yet the wmcore mapper panics on the ill-typed uptime field and
emits nothing at all. -/
theorem claimC3_counterexample :
    jlookup [("uptime", JValue.jstr "boom")] "memory_percent" = none ∧
    part000Collect [("uptime", JValue.jstr "boom")] = .error typeAssertPanic :=
  ⟨rfl, rfl⟩

/-- C3, amended: provided every declared field that is present has its
expected type (so the mapping completes), the wmcore mapper emits all its
scalar samples, an absent field contributing value zero; in particular
the empty snapshot yields all five samples with value zero, among them
memory_percent == 0. -/
theorem claimC3_amended (rec : RawSnapshot) (h : part000WellTyped rec = true) :
    part000Collect rec = .ok (part000ScalarVals rec) ∧
    (∀ key : String, jlookup rec key = none → floatOrZeroVal rec key = .fin 0) ∧
    part000Collect [] = .ok
      [ ⟨buildFQName "wmcore" "" "uptime", [], .fin 0⟩,
        ⟨buildFQName "wmcore" "" "memory_percent", [], .fin 0⟩,
        ⟨buildFQName "wmcore" "" "cpu_percent", [], .fin 0⟩,
        ⟨buildFQName "wmcore" "" "num_threads", [], .fin 0⟩,
        ⟨buildFQName "wmcore" "" "num_threads", [], .fin 0⟩ ] :=
  ⟨part000Collect_wellTyped h, fun _ hk => floatOrZero_absent hk, rfl⟩

theorem claimC3_witness :
    part000Collect [] = .ok (part000ScalarVals []) ∧
    floatOrZeroVal [] "memory_percent" = .fin 0 :=
  ⟨(claimC3_amended [] rfl).1, (claimC3_amended [] rfl).2.1 "memory_percent" rfl⟩

/-- C4 (code bug): das2go's `NewExporter` never initializes the
scrapeFailures counter, so on a 503 response `Collect` calls `Inc()` on a
nil `prometheus.Counter` interface and panics — the cycle crashes the
process instead of incrementing the counter by one and serving the pull
request. -/
theorem claimC4_code_evaluation :
    das2goNewExporterScrapeFailures = none ∧
    das2goCycle (.response 503 "service unavailable" none none)
      das2goNewExporterScrapeFailures connGauges0 = .crashed ∧
    CycleOutcome.crashed.terminatesProcess = true := ⟨rfl, rfl, rfl⟩

theorem part003CoresSamples_filter_self (cores : List GoFloat) :
    (part003CoresSamples cores).filter
      (fun m => m.name == buildFQName "das2go" "" "cores_percent") =
      part003CoresSamples cores := by
  rw [List.filter_eq_self]
  intro m hm
  unfold part003CoresSamples at hm
  simp only [List.mem_map] at hm
  obtain ⟨p, hp, rfl⟩ := hm
  simp

theorem part003CoresSamples_filter_ne (cores : List GoFloat) (target : String)
    (hne : target ≠ buildFQName "das2go" "" "cores_percent") :
    (part003CoresSamples cores).filter (fun m => m.name == target) = [] := by
  rw [List.filter_eq_nil_iff]
  intro m hm
  unfold part003CoresSamples at hm
  simp only [List.mem_map] at hm
  obtain ⟨p, hp, rfl⟩ := hm
  simp
  exact fun habs => hne habs.symm

/-- C5, counterexample: the claim states that every RawSnapshot whose
per-core CPU field is a non-empty numeric array yields the labeled core
samples plus the mean.  On this snapshot the CPU field is the non-empty
numeric array [10.0], yet the mapper panics on the ill-typed Uptime field
(extracted after the CPU block) and emits no samples at all. -/
theorem claimC5_counterexample :
    jlookup [("CPU", JValue.jarr [JValue.jnum (.fin 10)]), ("Uptime", JValue.jstr "x")]
      "CPU" = some (.jarr [JValue.jnum (.fin 10)]) ∧
    part003Collect [("CPU", JValue.jarr [JValue.jnum (.fin 10)]), ("Uptime", JValue.jstr "x")] =
      .error typeAssertPanic := ⟨rfl, rfl⟩

/-- C5, amended: provided every declared field that is present has its
expected type (so the mapping completes), a snapshot whose CPU field is a
non-empty array of (finite) numbers yields one cores_percent sample per
core index in input order, labeled core-i and carrying the i-th element,
plus a cpu_percent sample equal to the arithmetic mean of the array. -/
theorem claimC5_amended (rec : RawSnapshot) (xs : List ℚ)
    (hwt : part003WellTyped rec = true)
    (hcpu : jlookup rec "CPU" = some (.jarr (xs.map fun q => .jnum (.fin q))))
    (hne : xs ≠ []) :
    ∃ samples, part003Collect rec = .ok samples ∧
      samples.filter (fun m => m.name == buildFQName "das2go" "" "cores_percent") =
        (xs.map GoFloat.fin).enum.map (fun p =>
          MetricSample.mk (buildFQName "das2go" "" "cores_percent")
            ["core-" ++ toString p.1] p.2) ∧
      samples.filter (fun m => m.name == buildFQName "das2go" "" "cpu_percent") =
        [⟨buildFQName "das2go" "" "cpu_percent", [], .fin (xs.sum / ((xs.length : ℚ)))⟩] := by
  have hlen : ((xs.length : ℚ)) ≠ 0 :=
    Nat.cast_ne_zero.mpr fun h0 => hne (List.length_eq_zero.mp h0)
  have hcpuval : part003CPUVal rec =
      (xs.map GoFloat.fin, .fin (xs.sum / ((xs.length : ℚ)))) := by
    unfold part003CPUVal
    simp only [hcpu]
    rw [asNumsVal_map_fin, goSum_fin]
    simp only [List.length_map]
    rw [goFloat_div_fin hlen]
  have hfield : (part003ExtractVal rec).cpu =
      (xs.map GoFloat.fin, .fin (xs.sum / ((xs.length : ℚ)))) := by
    rw [← hcpuval]; rfl
  refine ⟨part003Emit (part003ExtractVal rec), part003Collect_wellTyped hwt, ?_, ?_⟩
  · unfold part003Emit
    rw [hfield]
    rw [List.filter_append, List.filter_append]
    rw [show ((xs.map GoFloat.fin, GoFloat.fin (xs.sum / ((xs.length : ℚ)))).1) =
          xs.map GoFloat.fin from rfl]
    rw [part003CoresSamples_filter_self]
    simp [buildFQName, part003CoresSamples]
  · unfold part003Emit
    rw [hfield]
    rw [List.filter_append, List.filter_append]
    rw [show ((xs.map GoFloat.fin, GoFloat.fin (xs.sum / ((xs.length : ℚ)))).1) =
          xs.map GoFloat.fin from rfl]
    rw [part003CoresSamples_filter_ne _ _ (by simp [buildFQName])]
    simp [buildFQName]

/-- Concrete snapshot for the C5 witness: per-core CPU array
[10.0, 20.0, 30.0] and nothing else. -/
def c5rec : RawSnapshot :=
  [("CPU", JValue.jarr [JValue.jnum (.fin 10), JValue.jnum (.fin 20), JValue.jnum (.fin 30)])]

theorem claimC5_witness :
    (part003Collect c5rec).map
        (List.filter fun m => m.name == buildFQName "das2go" "" "cpu_percent") =
      .ok [⟨buildFQName "das2go" "" "cpu_percent", [], .fin 20⟩] := by
  obtain ⟨s, h1, _, h3⟩ := claimC5_amended c5rec [10, 20, 30] rfl rfl (by simp)
  rw [h1]
  simp only [Except.map]
  rw [h3]
  norm_num

/-- C6: at most one fetch-map-serialize cycle executes at a time — in
every state reachable by interleaving two pull-request threads, the two
threads are never simultaneously inside the guarded cycle, so one
thread's fetch can never interleave with the other's mapping and two
simultaneous pulls give two sequential cycles. -/
theorem claimC6 (s : PubSys) (h : PubReach s) :
    ¬(s.p1.busy = true ∧ s.p2.busy = true) := by
  intro hb
  obtain ⟨hb1, hb2⟩ := hb
  have hinv := pubInv_reach h
  have e1 := hinv.1 hb1
  have e2 := hinv.2 hb2
  rw [e1] at e2
  simp at e2

/-- The state right after thread 1 acquired the guard and began its
fetch. -/
def pubAfterAcquire : PubSys := ⟨.fetching, .idle, some false⟩

theorem claimC6_witness :
    PubReach pubAfterAcquire ∧
    ¬(pubAfterAcquire.p1.busy = true ∧ pubAfterAcquire.p2.busy = true) :=
  ⟨Relation.ReflTransGen.single (PubStep.acquire1 rfl rfl),
   claimC6 pubAfterAcquire (Relation.ReflTransGen.single (PubStep.acquire1 rfl rfl))⟩

/-- C7: the connection-state classification is invariant under input
reordering — for any permutation of the connection list, whenever both
classifications complete, the (total, established, listen) counts are
identical; for both the part_003 status-field classifier and the
das2go/part_000 last-element classifier. -/
theorem claimC7 :
    (∀ (l1 l2 : List JValue), l1.Perm l2 → ∀ (a b : ℕ × ℕ × ℕ),
        classifyConnStatus l1 = .ok a → classifyConnStatus l2 = .ok b → a = b) ∧
    (∀ (m1 m2 : List (List JValue)), m1.Perm m2 → ∀ (a b : ℕ × ℕ × ℕ),
        classifyConnLast m1 = .ok a → classifyConnLast m2 = .ok b → a = b) := by
  constructor
  · intro l1 l2 hp a b ha hb
    rw [classifyConnStatus_ok ha, classifyConnStatus_ok hb, hp.length_eq,
        hp.countP_eq (statusIs "ESTABLISHED"), hp.countP_eq (statusIs "LISTEN")]
  · intro m1 m2 hp a b ha hb
    rw [classifyConnLast_ok ha, classifyConnLast_ok hb, hp.length_eq,
        hp.countP_eq (lastIs "ESTABLISHED"), hp.countP_eq (lastIs "LISTEN")]

/-- Two-element connection list for the C7 witness. -/
def c7l1 : List JValue :=
  [JValue.jobj [("status", JValue.jstr "ESTABLISHED")],
   JValue.jobj [("status", JValue.jstr "LISTEN")]]

/-- The same connection list in the opposite order. -/
def c7l2 : List JValue :=
  [JValue.jobj [("status", JValue.jstr "LISTEN")],
   JValue.jobj [("status", JValue.jstr "ESTABLISHED")]]

theorem claimC7_witness :
    classifyConnStatus c7l1 = .ok (2, 1, 1) ∧
    classifyConnStatus c7l2 = .ok (2, 1, 1) ∧
    ((2, 1, 1) : ℕ × ℕ × ℕ) = (2, 1, 1) :=
  ⟨rfl, rfl,
   claimC7.1 c7l1 c7l2
     (List.Perm.swap (JValue.jobj [("status", JValue.jstr "LISTEN")])
       (JValue.jobj [("status", JValue.jstr "ESTABLISHED")]) [])
     (2, 1, 1) (2, 1, 1) rfl rfl⟩

/-- C8: the das2go Field Mapper is a pure function of the snapshot — on
any snapshot that `json.Unmarshal` can have produced it leaves the
persistent connections gauge state unchanged, and its collect result does
not depend on that state (so no dependence on prior cycles). -/
theorem claimC8 (rec : RawSnapshot) (g g' : ConnGauges)
    (h : unmarshaledSnapshot rec = true) :
    (das2goMap rec g).2 = g ∧ (das2goMap rec g).1 = (das2goMap rec g').1 := by
  have hconn : ∀ gg : ConnGauges, das2goConn rec gg = .ok ([], gg) :=
    fun gg => das2goConn_not_jarr2 (fun v hv => jlookup_fromUnmarshal h hv)
  unfold das2goMap
  cases hs : das2goScalars rec with
  | error p => exact ⟨rfl, rfl⟩
  | ok l => rw [hconn g, hconn g']; exact ⟨rfl, rfl⟩

/-- Snapshot and dirty gauge state for the C8 witness. -/
def c8rec : RawSnapshot := [("Uptime", JValue.jnum (.fin 5))]

/-- A gauge state left over from a hypothetical earlier cycle. -/
def c8gauges : ConnGauges := ⟨some (.fin 9), some (.fin 4), some (.fin 2)⟩

theorem claimC8_witness :
    (das2goMap c8rec c8gauges).2 = c8gauges ∧
    (das2goMap c8rec c8gauges).1 = (das2goMap c8rec connGauges0).1 :=
  claimC8 c8rec c8gauges connGauges0 rfl

/-- C9: on every successful wmcore/reqmgr collect cycle the published
sample set carries the num_fds value as a second sample of the
num_threads descriptor — exactly two num_threads samples (thread count,
then file-descriptor count) and no num_fds sample, although the num_fds
descriptor is declared and described. -/
theorem claimC9 (rec : RawSnapshot) (samples : List MetricSample)
    (h : part000Collect rec = .ok samples) :
    samples.filter (fun m => m.name == buildFQName "wmcore" "" "num_threads") =
      [⟨buildFQName "wmcore" "" "num_threads", [], floatOrZeroVal rec "num_threads"⟩,
       ⟨buildFQName "wmcore" "" "num_threads", [], floatOrZeroVal rec "num_fds"⟩] ∧
    samples.filter (fun m => m.name == buildFQName "wmcore" "" "num_fds") = [] := by
  rw [part000Collect_ok h]
  rw [List.filter_append, List.filter_append]
  have hconnT : (part000ConnVal rec).filter
      (fun m => m.name == buildFQName "wmcore" "" "num_threads") = [] := by
    rw [List.filter_eq_nil_iff]
    intro m hm
    rw [part000ConnVal_names rec m hm]
    simp [buildFQName]
  have hconnF : (part000ConnVal rec).filter
      (fun m => m.name == buildFQName "wmcore" "" "num_fds") = [] := by
    rw [List.filter_eq_nil_iff]
    intro m hm
    rw [part000ConnVal_names rec m hm]
    simp [buildFQName]
  rw [hconnT, hconnF]
  constructor
  · simp [part000ScalarVals, buildFQName]
  · simp [part000ScalarVals, buildFQName]

/-- Snapshot for the C9 witness: 7 threads, 33 file descriptors. -/
def c9rec : RawSnapshot :=
  [("num_threads", JValue.jnum (.fin 7)), ("num_fds", JValue.jnum (.fin 33))]

theorem claimC9_witness :
    (part000ScalarVals c9rec).filter
        (fun m => m.name == buildFQName "wmcore" "" "num_threads") =
      [⟨buildFQName "wmcore" "" "num_threads", [], .fin 7⟩,
       ⟨buildFQName "wmcore" "" "num_threads", [], .fin 33⟩] ∧
    (part000ScalarVals c9rec).filter
        (fun m => m.name == buildFQName "wmcore" "" "num_fds") = [] := by
  have h := claimC9 c9rec (part000ScalarVals c9rec) rfl
  exact ⟨h.1, h.2⟩

/-- C10, counterexample: the claim states that every RawSnapshot whose
CPU field is an empty array leads to publication of a NaN cpu_percent.
On this snapshot CPU is the empty array, yet the das2go mapper panics on
the ill-typed Uptime field and publishes nothing at all. -/
theorem claimC10_counterexample :
    jlookup [("CPU", JValue.jarr []), ("Uptime", JValue.jstr "x")] "CPU" =
      some (.jarr []) ∧
    (das2goMap [("CPU", JValue.jarr []), ("Uptime", JValue.jstr "x")] connGauges0).1 =
      .panic typeAssertPanic := ⟨rfl, rfl⟩

/-- C10, amended: provided every declared field that is present has its
expected type (so the mapping completes), a present empty CPU array makes
the das2go mapper compute cpu_percent as 0/0 — the division by the array
length is unguarded — and publish NaN rather than the default zero. -/
theorem claimC10_amended (rec : RawSnapshot) (g : ConnGauges)
    (hwt : das2goWellTyped rec = true)
    (hcpu : jlookup rec "CPU" = some (.jarr [])) :
    (das2goMap rec g).1 = .ok (das2goScalarVals rec) ∧
    (das2goScalarVals rec).filter
        (fun m => m.name == buildFQName "das2go" "" "cpu_percent") =
      [⟨buildFQName "das2go" "" "cpu_percent", [], GoFloat.nan⟩] ∧
    GoFloat.nan ≠ GoFloat.fin 0 := by
  have hcpuval : das2goCPUVal rec = GoFloat.nan := by
    unfold das2goCPUVal
    simp only [hcpu]
    rfl
  refine ⟨by rw [das2goMap_wellTyped g hwt], ?_, by simp⟩
  unfold das2goScalarVals
  rw [hcpuval]
  simp [buildFQName]

/-- Snapshot for the C10 witness: an empty per-core CPU array. -/
def c10rec : RawSnapshot := [("CPU", JValue.jarr [])]

theorem claimC10_witness :
    (das2goMap c10rec connGauges0).1 = .ok (das2goScalarVals c10rec) ∧
    (das2goScalarVals c10rec).filter
        (fun m => m.name == buildFQName "das2go" "" "cpu_percent") =
      [⟨buildFQName "das2go" "" "cpu_percent", [], GoFloat.nan⟩] := by
  have h := claimC10_amended c10rec connGauges0 rfl rfl
  exact ⟨h.1, h.2.1⟩
